import Mathlib

/-!
# Verification of the atlaas elevation-map core (src/atlaas.cpp)

Shallow embedding of the atlaas sliding-window elevation model.
Cells hold the six float bands `N_POINTS, Z_MAX, Z_MIN, Z_MEAN,
VARIANCE, LAST_UPDATE`; floats are modelled exactly as rationals.
Buffers (`internal`, `dyninter`, `gndinter`, `vertical`) are lists
indexed like the row-major `width × height` arrays of the source.
-/

namespace Atlaas

/-- One cell of the map: the six bands of `cell_info_t`
(`N_POINTS, Z_MAX, Z_MIN, Z_MEAN, VARIANCE, LAST_UPDATE`),
each a float in the source, modelled as an exact rational. -/
structure Cell where
  n_points : ℚ
  z_max : ℚ
  z_min : ℚ
  z_mean : ℚ
  variance : ℚ
  last_update : ℚ
deriving DecidableEq, Repr

/-- The cell `cell_info_t zeros` of the source, all bands zero. -/
def zeroCell : Cell := ⟨0, 0, 0, 0, 0, 0⟩

/-- Body of the point loop of `atlaas::merge(const points&, cells_info_t&)`
(atlaas.cpp:251-277): fold one height sample `new_z` into a cell.
An empty cell is seeded from the sample; otherwise the count,
extrema, Welford mean and the stored sum of squared deviations
are updated in the order of the source. -/
def addSample (info : Cell) (new_z : ℚ) : Cell :=
  if info.n_points < 1 then
    { info with n_points := 1, z_max := new_z, z_min := new_z,
                z_mean := new_z, variance := 0 }
  else
    let z_mean := info.z_mean
    let n' := info.n_points + 1
    let zmax := if new_z > info.z_max then new_z else info.z_max
    let zmin := if new_z < info.z_min then new_z else info.z_min
    let zmean := (z_mean * info.n_points + new_z) / n'
    let var := info.variance + (new_z - z_mean) * (new_z - zmean)
    { info with n_points := n', z_max := zmax, z_min := zmin,
                z_mean := zmean, variance := var }

/-- The point loop of `atlaas::merge(const points&, cells_info_t&)`
(atlaas.cpp:246-278). Each point has already been transformed; the
external `map.index_custom` is abstracted as an `Option ℕ` cell
index carried with the point's height: `none` is the
`std::numeric_limits<size_t>::max()` sentinel and the point is
skipped (`continue`), `some i` updates cell `i` in place. -/
def mergeCloud : List (Option ℕ × ℚ) → List Cell → List Cell
  | [], inter => inter
  | (none, _) :: rest, inter => mergeCloud rest inter
  | (some i, z) :: rest, inter =>
      mergeCloud rest (inter.set i (addSample (inter.getD i zeroCell) z))

/-- `atlaas::merge(const points&, cells_info_t&)` together with its
final `map_sync = false;` (atlaas.cpp:279): returns the updated
buffer and the new value of `map_sync`. -/
def mergeCloudSync (cloud : List (Option ℕ × ℚ)) (inter : List Cell)
    (_map_sync : Bool) : List Cell × Bool :=
  (mergeCloud cloud inter, false)

/-- `atlaas::merge(cell_info_t& dst, const cell_info_t& src)`
(atlaas.cpp:343-369), the pairwise cell fusion used by the dynamic
merge. If `dst` is empty, `src` is copied over it. Otherwise the
extrema, the weighted mean, the variance combiner of the source
(which multiplies each stored variance by itself and omits the
commented-out cross term) and finally the count are written, in
the order of the source. -/
def mergeCell (dst src : Cell) : Cell :=
  if dst.n_points < 1 then src
  else
    let new_n_pts := src.n_points + dst.n_points
    let z_mean := dst.z_mean
    let zmax := if dst.z_max < src.z_max then src.z_max else dst.z_max
    let zmin := if dst.z_min > src.z_min then src.z_min else dst.z_min
    let zmean := (z_mean * dst.n_points + src.z_mean * src.n_points) / new_n_pts
    let var := (src.variance * src.variance * src.n_points
              + dst.variance * dst.variance * dst.n_points) / new_n_pts
    { dst with z_max := zmax, z_min := zmin, z_mean := zmean,
               variance := var, n_points := new_n_pts }

/-- Modelled from the spec: `merge_cells(dst, src)` of §4.A, the
combiner the specification prescribes (the source's combiner is
different; see §9 of the spec). If `dst` is empty copy `src`; if
`src` is empty no-op; else `N = dst.n + src.n`,
`z_mean = (dst.z_mean·dst.n + src.z_mean·src.n)/N`,
`m2 = dst.m2 + src.m2 + d²·dst.n·src.n/N` with
`d = src.z_mean − dst.z_mean`, min/max by extremum. -/
def merge_cells_spec (dst src : Cell) : Cell :=
  if dst.n_points = 0 then src
  else if src.n_points = 0 then dst
  else
    let N := dst.n_points + src.n_points
    let d := src.z_mean - dst.z_mean
    { dst with
      n_points := N
      z_max := max dst.z_max src.z_max
      z_min := min dst.z_min src.z_min
      z_mean := (dst.z_mean * dst.n_points + src.z_mean * src.n_points) / N
      variance := dst.variance + src.variance
                + d * d * dst.n_points * src.n_points / N }

/-- The finalized variance `m2 / (n − 1)` reported for a cell with at
least two samples (spec §3); for the scenario checks. -/
def finalizedVariance (c : Cell) : ℚ := c.variance / (c.n_points - 1)

/-- The loop of `atlaas::variance_mean` (atlaas.cpp:289-296): for every
cell with more than two samples the stored variance is replaced in
place by `variance / (n_points − 1)`, and the finalized value is
accumulated into a running total with a count of qualifying cells.
Returns the mutated buffer, the count and the total. -/
def varianceLoop : List Cell → List Cell × ℕ × ℚ
  | [] => ([], 0, 0)
  | c :: rest =>
      let r := varianceLoop rest
      if c.n_points > 2 then
        let c2 := { c with variance := c.variance / (c.n_points - 1) }
        (c2 :: r.1, r.2.1 + 1, r.2.2 + c2.variance)
      else
        (c :: r.1, r.2.1, r.2.2)

/-- `atlaas::variance_mean` (atlaas.cpp:285-302): finalize variances in
place and return the mutated buffer together with the returned mean
(`0` when no cell has more than two samples). -/
def variance_mean (inter : List Cell) : List Cell × ℚ :=
  let r := varianceLoop inter
  if r.2.1 = 0 then (r.1, 0) else (r.1, r.2.2 / (r.2.1 : ℚ))

/-- The per-index state read and written by the dynamic merge loop:
the persistent window cell `w` (`internal`), the vertical flag `s`
(`vertical`) and the ground cache cell `g` (`gndinter`). -/
structure DynState where
  w : Cell
  s : Bool
  g : Cell
deriving DecidableEq, Repr

/-- Body of the loop of `atlaas::merge()` (atlaas.cpp:314-334) at one
index: if the scan cell is non-empty, classify it against the
threshold and reconcile with the persistent cell, flag and ground
cache per the four branches of the source, then stamp
`LAST_UPDATE` with the reference time `t`. -/
def reconcile (threshold t : ℚ) (dyninfo : Cell) (st : DynState) : DynState :=
  if dyninfo.n_points > 0 then
    let is_vertical : Bool := dyninfo.variance > threshold
    let st' :=
      if st.w.n_points < 1 then
        { st with s := is_vertical, w := dyninfo }
      else if st.s = is_vertical then
        { st with w := mergeCell st.w dyninfo }
      else if st.s = false then
        { st with g := st.w, w := dyninfo, s := true }
      else
        { st with s := false, w := mergeCell st.g dyninfo }
    { st' with w := { st'.w with last_update := t } }
  else st

/-- The loop of `atlaas::merge()` (atlaas.cpp:314-339) over the whole
buffers: `dyninter`, `internal`, `vertical` and `gndinter` are
walked in lockstep and each index is reconciled independently.
Returns the new `internal`, `vertical` and `gndinter`. -/
def dynMergeLoop (threshold t : ℚ) :
    List Cell → List Cell → List Bool → List Cell →
    List Cell × List Bool × List Cell
  | d :: ds, w :: ws, s :: ss, g :: gs =>
      let r := reconcile threshold t d ⟨w, s, g⟩
      let rest := dynMergeLoop threshold t ds ws ss gs
      (r.w :: rest.1, r.s :: rest.2.1, r.g :: rest.2.2)
  | _, ws, ss, gs => (ws, ss, gs)

/-- `atlaas::merge()` (atlaas.cpp:307-341): finalize the scan buffer
with `variance_mean`, form the threshold
`variance_factor * variance_mean(dyninter)` and run the
reconciliation loop; `t` is `get_reference_time()`. -/
def dynamicMerge (variance_factor t : ℚ) (dyninter internal : List Cell)
    (vertical : List Bool) (gndinter : List Cell) :
    List Cell × List Bool × List Cell :=
  let r := variance_mean dyninter
  dynMergeLoop (variance_factor * r.2) t r.1 internal vertical gndinter

/-! ## The slider (`atlaas::slide_to`, atlaas.cpp:106-235)

The external `map.point_custom2pix` is abstracted away: `slide_to` is
modelled on the normalized window coordinates `(cx, cy) = (pixr0/width,
pixr1/height)` it computes on atlaas.cpp:108-109. Tile I/O is
abstracted as a trace of events: `sub_save`/`sub_load` record the grid
offset `(sx, sy)` and the world-tile coordinates `(current0+sx,
current1+sy)` under which the tile file is named at the moment of the
call (atlaas.cpp:73 and atlaas.cpp:97); `shift` marks the in-place move
of the cell array and `center` the `current += (dx, dy)` update. -/

/-- The central-square test of atlaas.cpp:111-113. -/
def centered (cx cy : ℚ) : Prop :=
  1/4 < cx ∧ cx < 3/4 ∧ 1/4 < cy ∧ cy < 3/4

instance (cx cy : ℚ) : Decidable (centered cx cy) := by
  unfold centered; infer_instance

/-- `dx = (cx < 0.33) ? -1 : (cx > 0.66) ? 1 : 0` (atlaas.cpp:115). -/
def dxOf (cx : ℚ) : ℤ :=
  if cx < 33/100 then -1 else if cx > 66/100 then 1 else 0

/-- `dy = (cy < 0.33) ? -1 : (cy > 0.66) ? 1 : 0` (atlaas.cpp:116). -/
def dyOf (cy : ℚ) : ℤ :=
  if cy < 33/100 then -1 else if cy > 66/100 then 1 else 0

/-- Observable events of one `slide_to` call, in program order:
`save sx sy wx wy` is `sub_save(sx, sy)` writing world tile
`(wx, wy)`, `load` likewise for `sub_load`, `shift` is the in-place
move of the cell array, `center` the update of `current`. -/
inductive Ev where
  | save (sx sy wx wy : ℤ)
  | load (sx sy wx wy : ℤ)
  | shift
  | center
deriving DecidableEq, Repr

/-- The grid offsets passed to `sub_save`, in the order of the source
(atlaas.cpp:122-172). -/
def saveList (dx dy : ℤ) : List (ℤ × ℤ) :=
  if dx = -1 then
    [(1, -1), (1, 0), (1, 1)] ++
      (if dy = -1 then [(-1, 1), (0, 1)]
       else if dy = 1 then [(-1, -1), (0, -1)] else [])
  else if dx = 1 then
    [(-1, -1), (-1, 0), (-1, 1)] ++
      (if dy = -1 then [(0, 1), (1, 1)]
       else if dy = 1 then [(0, -1), (1, -1)] else [])
  else if dy = -1 then [(-1, 1), (0, 1), (1, 1)]
  else if dy = 1 then [(-1, -1), (0, -1), (1, -1)]
  else []

/-- The grid offsets passed to `sub_load`, in the order of the source
(atlaas.cpp:190-228). -/
def loadList (dx dy : ℤ) : List (ℤ × ℤ) :=
  if dx = -1 then
    [(-1, -1), (-1, 0), (-1, 1)] ++
      (if dy = -1 then [(0, -1), (1, -1)]
       else if dy = 1 then [(0, 1), (1, 1)] else [])
  else if dx = 1 then
    [(1, -1), (1, 0), (1, 1)] ++
      (if dy = -1 then [(-1, -1), (0, -1)]
       else if dy = 1 then [(-1, 1), (0, 1)] else [])
  else if dy = -1 then [(-1, -1), (0, -1), (1, -1)]
  else if dy = 1 then [(-1, 1), (0, 1), (1, 1)]
  else []

/-- One row under the WEST move (atlaas.cpp:137-141, `dx = -1`): per
row of `width = 3·sw` cells, `copy_backward(it, it+2sw, it+width)`
then `fill(it, it+sw, zeros)` — the first `sw` cells become zeros,
followed by the first `2·sw` old cells. -/
def rowWest (sw : ℕ) (row : List Cell) : List Cell :=
  List.replicate sw zeroCell ++ row.take (2 * sw)

/-- One row under the EAST move (atlaas.cpp:157-161, `dx = 1`):
`copy(it+sw, it+width, it)` then `fill(it+2sw, it+width, zeros)` —
the first `sw` old cells are dropped and `sw` zeros appended. -/
def rowEast (sw : ℕ) (row : List Cell) : List Cell :=
  row.drop sw ++ List.replicate sw zeroCell

/-- Apply a per-row transform to `r` consecutive rows of `w` cells. -/
def mapRows (f : List Cell → List Cell) (w : ℕ) : ℕ → List Cell → List Cell
  | 0, l => l
  | r + 1, l => f (l.take w) ++ mapRows f w r (l.drop w)

/-- The in-place shift of the cell array during `slide_to`
(atlaas.cpp:137-141, 157-161 for the horizontal move inside the
`dx` branches, then atlaas.cpp:174-183 for the vertical move).
For `dy = -1` the source fills only `sh·width − 1` cells
(atlaas.cpp:178), so the cell at index `sh·width − 1` keeps the
value `copy_backward` left there — the pre-shift cell of the same
index. -/
def shiftInternal (sw sh : ℕ) (dx dy : ℤ) (internal : List Cell) : List Cell :=
  let w := 3 * sw
  let l1 := if dx = -1 then mapRows (rowWest sw) w (3 * sh) internal
            else if dx = 1 then mapRows (rowEast sw) w (3 * sh) internal
            else internal
  if dy = -1 then
    let moved := l1.take (sh * w) ++ l1.take (l1.length - sh * w)
    List.replicate (sh * w - 1) zeroCell ++ moved.drop (sh * w - 1)
  else if dy = 1 then
    l1.drop (sh * w) ++ List.replicate (sh * w) zeroCell
  else l1

/-- The state of an `atlaas` object that `slide_to` touches. -/
structure AtlaasState where
  sw : ℕ
  sh : ℕ
  internal : List Cell
  gndinter : List Cell
  vertical : List Bool
  current : ℤ × ℤ
  map_sync : Bool
deriving DecidableEq, Repr

/-- `atlaas::slide_to` (atlaas.cpp:106-235) on normalized window
coordinates `(cx, cy)`: if the robot is in the central square,
return unchanged with an empty trace (atlaas.cpp:111-113);
otherwise compute the shift intent, zero the ground cache and
vertical mask (atlaas.cpp:119-120), save the displaced tiles under
the pre-shift `current`, shift the cell array in place, update
`current`, load the exposed tiles under the post-shift `current`,
and clear `map_sync` (atlaas.cpp:233). The trace records the
`sub_save`/`sub_load` calls around the `shift` and `center` marks
in program order. -/
def slide_to (st : AtlaasState) (cx cy : ℚ) : AtlaasState × List Ev :=
  if centered cx cy then (st, [])
  else
    let dx := dxOf cx
    let dy := dyOf cy
    let cur := st.current
    let cur' := (cur.1 + dx, cur.2 + dy)
    let internal' := shiftInternal st.sw st.sh dx dy st.internal
    ⟨{ st with
        internal := internal'
        gndinter := st.gndinter.map fun _ => zeroCell
        vertical := st.vertical.map fun _ => false
        current := cur'
        map_sync := false },
      ((saveList dx dy).map fun p => Ev.save p.1 p.2 (cur.1 + p.1) (cur.2 + p.2))
        ++ [Ev.shift, Ev.center]
        ++ ((loadList dx dy).map fun p => Ev.load p.1 p.2 (cur'.1 + p.1) (cur'.2 + p.2))⟩

/-- The `sub_save` events of a trace. -/
def saveEvents (tr : List Ev) : List Ev :=
  tr.filter fun e => match e with | .save _ _ _ _ => true | _ => false

/-- The `sub_load` events of a trace. -/
def loadEvents (tr : List Ev) : List Ev :=
  tr.filter fun e => match e with | .load _ _ _ _ => true | _ => false

/-- The nine tile offsets of the 3×3 window. -/
def grid9 : List (ℤ × ℤ) :=
  [(-1, -1), (-1, 0), (-1, 1), (0, -1), (0, 0), (0, 1), (1, -1), (1, 0), (1, 1)]

/-- Whether a tile offset lies on the 3×3 grid. -/
def onGrid (p : ℤ × ℤ) : Bool :=
  decide (-1 ≤ p.1 ∧ p.1 ≤ 1 ∧ -1 ≤ p.2 ∧ p.2 ≤ 1)

/-- The tiles a shift by `(dx, dy)` must evict: those whose post-shift
position `(sx − dx, sy − dy)` falls off the 3×3 grid (spec §4.E). -/
def evictSet (dx dy : ℤ) : List (ℤ × ℤ) :=
  grid9.filter fun p => ! onGrid (p.1 - dx, p.2 - dy)

/-- The tiles a shift by `(dx, dy)` must load: those whose pre-shift
position `(sx + dx, sy + dy)` was off the 3×3 grid (spec §4.E). -/
def loadSet (dx dy : ℤ) : List (ℤ × ℤ) :=
  grid9.filter fun p => ! onGrid (p.1 + dx, p.2 + dy)

/-- The per-cell effect of the `variance_mean` loop (atlaas.cpp:290-295):
cells with more than two samples get their variance finalized in
place, all others are untouched. -/
def finalizeCell (c : Cell) : Cell :=
  if c.n_points > 2 then { c with variance := c.variance / (c.n_points - 1) } else c

/-- A small concrete window state (`sw = sh = 1`, 3×3 cells) used to
exercise `slide_to` on closed inputs. -/
def exSlideState : AtlaasState :=
  ⟨1, 1, List.replicate 9 zeroCell, List.replicate 9 zeroCell,
    List.replicate 9 false, (0, 0), true⟩

/-- A nonzero cell used to exhibit the incomplete zero-fill of the
`dy = -1` shift. -/
def exCell : Cell := ⟨1, 2, 0, 1, 1, 0⟩

/-- A 3×3 window (`sw = sh = 1`) holding `exCell` everywhere, with the
raster mirror in sync. -/
def exFullState : AtlaasState :=
  ⟨1, 1, List.replicate 9 exCell, List.replicate 9 zeroCell,
    List.replicate 9 false, (0, 0), true⟩

/-! ## Helper lemmas -/

/-- `mergeCloud` skips every point whose index lookup returned the
outside sentinel. -/
theorem mergeCloud_of_none :
    ∀ (cloud : List (Option ℕ × ℚ)) (inter : List Cell),
      (∀ p ∈ cloud, p.1 = none) → mergeCloud cloud inter = inter
  | [], _, _ => rfl
  | (o, z) :: rest, inter, h => by
      have h0 : o = none := h (o, z) (List.mem_cons_self _ _)
      subst h0
      exact mergeCloud_of_none rest inter fun p hp => h p (List.mem_cons_of_mem _ hp)

/-- `saveEvents` distributes over append. -/
theorem saveEvents_append (xs ys : List Ev) :
    saveEvents (xs ++ ys) = saveEvents xs ++ saveEvents ys :=
  List.filter_append _ _

/-- `loadEvents` distributes over append. -/
theorem loadEvents_append (xs ys : List Ev) :
    loadEvents (xs ++ ys) = loadEvents xs ++ loadEvents ys :=
  List.filter_append _ _

/-- A list of save events filters to itself. -/
theorem saveEvents_map_save (l : List (ℤ × ℤ)) (c1 c2 : ℤ) :
    saveEvents (l.map fun p => Ev.save p.1 p.2 (c1 + p.1) (c2 + p.2))
      = l.map fun p => Ev.save p.1 p.2 (c1 + p.1) (c2 + p.2) := by
  apply List.filter_eq_self.mpr
  intro a ha
  rw [List.mem_map] at ha
  obtain ⟨p, _, rfl⟩ := ha
  rfl

/-- A list of load events has no save events. -/
theorem saveEvents_map_load (l : List (ℤ × ℤ)) (c1 c2 : ℤ) :
    saveEvents (l.map fun p => Ev.load p.1 p.2 (c1 + p.1) (c2 + p.2)) = [] := by
  apply List.filter_eq_nil_iff.mpr
  intro a ha
  rw [List.mem_map] at ha
  obtain ⟨p, _, rfl⟩ := ha
  simp [saveEvents]

/-- A list of load events filters to itself. -/
theorem loadEvents_map_load (l : List (ℤ × ℤ)) (c1 c2 : ℤ) :
    loadEvents (l.map fun p => Ev.load p.1 p.2 (c1 + p.1) (c2 + p.2))
      = l.map fun p => Ev.load p.1 p.2 (c1 + p.1) (c2 + p.2) := by
  apply List.filter_eq_self.mpr
  intro a ha
  rw [List.mem_map] at ha
  obtain ⟨p, _, rfl⟩ := ha
  rfl

/-- A list of save events has no load events. -/
theorem loadEvents_map_save (l : List (ℤ × ℤ)) (c1 c2 : ℤ) :
    loadEvents (l.map fun p => Ev.save p.1 p.2 (c1 + p.1) (c2 + p.2)) = [] := by
  apply List.filter_eq_nil_iff.mpr
  intro a ha
  rw [List.mem_map] at ha
  obtain ⟨p, _, rfl⟩ := ha
  simp [loadEvents]

/-! ## Claim theorems -/

/-- Claim C5: starting from an empty window, folding the three heights
1.0, 3.0, 2.0 into the same cell via the aggregator yields
`n_points = 3`, `z_min = 1`, `z_max = 3`, `z_mean = 2`, and a
finalized variance `m2 / (n_points − 1)` equal to 1. -/
theorem C5_three_point_scenario :
    (mergeCloud [(some 0, 1), (some 0, 3), (some 0, 2)] [zeroCell]).getD 0 zeroCell
      = { n_points := 3, z_max := 3, z_min := 1, z_mean := 2,
          variance := 2, last_update := 0 } ∧
    finalizedVariance
      ((mergeCloud [(some 0, 1), (some 0, 3), (some 0, 2)] [zeroCell]).getD 0 zeroCell)
      = 1 := by
  norm_num [mergeCloud, addSample, zeroCell, finalizedVariance]

/-- Claim C2 (code bug): at `dst = (n 1, mean 0, min 0, max 0, var 3)`
and `src = (n 1, mean 0, min 0, max 0, var 0)` the source combiner
`atlaas::merge(cell_info_t&, const cell_info_t&)` yields variance
`(0²·1 + 3²·1)/2 = 9/2`, while the combined sum of squared
deviations claimed by the spec, `dst.m2 + src.m2 + δ²·dst.n·src.n/N`
with `δ = 0`, is `3`: the code squares the stored variance and
drops the cross term. Count, mean and extrema do agree. -/
theorem C2_combiner_diverges :
    (mergeCell ⟨1, 0, 0, 0, 3, 0⟩ ⟨1, 0, 0, 0, 0, 0⟩).variance = 9/2 ∧
    (merge_cells_spec ⟨1, 0, 0, 0, 3, 0⟩ ⟨1, 0, 0, 0, 0, 0⟩).variance = 3 ∧
    (mergeCell ⟨1, 0, 0, 0, 3, 0⟩ ⟨1, 0, 0, 0, 0, 0⟩).variance ≠
      (merge_cells_spec ⟨1, 0, 0, 0, 3, 0⟩ ⟨1, 0, 0, 0, 0, 0⟩).variance ∧
    (mergeCell ⟨1, 0, 0, 0, 3, 0⟩ ⟨1, 0, 0, 0, 0, 0⟩).n_points =
      (merge_cells_spec ⟨1, 0, 0, 0, 3, 0⟩ ⟨1, 0, 0, 0, 0, 0⟩).n_points ∧
    (mergeCell ⟨1, 0, 0, 0, 3, 0⟩ ⟨1, 0, 0, 0, 0, 0⟩).z_mean =
      (merge_cells_spec ⟨1, 0, 0, 0, 3, 0⟩ ⟨1, 0, 0, 0, 0, 0⟩).z_mean := by
  norm_num [mergeCell, merge_cells_spec]

/-- Claim C8 (code bug): with `src.n_points = 0` (the zero cell) and
`dst.n_points = 1`, the source `atlaas::merge(cell_info_t&, const
cell_info_t&)` is not a no-op: it rewrites `dst.variance` to
`(0²·0 + 3²·1)/1 = 9`, because the function has no empty-`src`
early return and its combiner squares the stored variance. -/
theorem C8_empty_src_not_noop :
    mergeCell ⟨1, 0, 0, 0, 3, 0⟩ zeroCell ≠ ⟨1, 0, 0, 0, 3, 0⟩ ∧
    (mergeCell ⟨1, 0, 0, 0, 3, 0⟩ zeroCell).variance = 9 ∧
    zeroCell.n_points = 0 := by
  norm_num [mergeCell, zeroCell]

/-- Claim C3 (code bug): a `dy = -1` slide on a 3×3 window (`sw = sh =
1`) whose cells are all `exCell` zero-fills exposed cells 0 and 1
but leaves cell 2 — the last cell of the `sh·width` exposed block —
holding the stale pre-shift value, because atlaas.cpp:178 fills
only up to `internal.begin() + sh * width - 1`. -/
theorem C3_trailing_edge_off_by_one :
    dxOf (1/2) = 0 ∧ dyOf (1/10) = -1 ∧
    (slide_to exFullState (1/2) (1/10)).1.internal.getD 0 zeroCell = zeroCell ∧
    (slide_to exFullState (1/2) (1/10)).1.internal.getD 1 zeroCell = zeroCell ∧
    (slide_to exFullState (1/2) (1/10)).1.internal.getD 2 zeroCell = exCell ∧
    exCell ≠ zeroCell := by
  norm_num [slide_to, exFullState, centered, dxOf, dyOf, shiftInternal,
    exCell, zeroCell, List.replicate_succ]

/-- Claim C7 (counterexample): a cloud consisting of one point outside
the window (sentinel index), merged into a one-cell window whose
`map_sync` flag is `true`, leaves the cell untouched but flips
`map_sync` to `false` (atlaas.cpp:279 runs unconditionally), so
the flag is not left unchanged as claimed. -/
theorem C7_map_sync_cleared :
    (mergeCloudSync [(none, 5)] [zeroCell] true).1 = [zeroCell] ∧
    (mergeCloudSync [(none, 5)] [zeroCell] true).2 = false ∧
    (mergeCloudSync [(none, 5)] [zeroCell] true).2 ≠ true := by
  simp [mergeCloudSync, mergeCloud]

/-- Claim C7 (amended): for every point cloud whose transformed points
all map outside the window, aggregating the cloud leaves every
window cell unchanged — each outside sample is silently dropped —
and sets `map_sync` to `false` unconditionally. -/
theorem C7_outside_cloud_cells_unchanged (cloud : List (Option ℕ × ℚ))
    (inter : List Cell) (sync : Bool) (h : ∀ p ∈ cloud, p.1 = none) :
    mergeCloudSync cloud inter sync = (inter, false) := by
  unfold mergeCloudSync
  rw [mergeCloud_of_none cloud inter h]

/-- Witness for the amended C7 at a concrete all-outside cloud. -/
theorem C7_outside_cloud_witness :
    (∀ p ∈ ([(none, 5), (none, -2)] : List (Option ℕ × ℚ)), p.1 = none) ∧
    mergeCloudSync [(none, 5), (none, -2)] [zeroCell, exCell] true
      = ([zeroCell, exCell], false) :=
  ⟨by decide, C7_outside_cloud_cells_unchanged _ _ _ (by decide)⟩


/-- Claim C9: whenever the normalized window coordinates lie strictly
inside the central square (`0.25 < cx < 0.75` and `0.25 < cy <
0.75`), `slide_to` is a no-op: the window, ground cache, vertical
mask, current center and `map_sync` are unchanged and no tile
save or load (indeed no event at all) is issued. -/
theorem C9_centered_noop (st : AtlaasState) (cx cy : ℚ) (h : centered cx cy) :
    slide_to st cx cy = (st, []) := by
  unfold slide_to
  rw [if_pos h]

/-- Witness for C9 at the window center. -/
theorem C9_centered_witness :
    centered (1/2) (1/2) ∧ slide_to exFullState (1/2) (1/2) = (exFullState, []) :=
  ⟨by norm_num [centered], C9_centered_noop _ _ _ (by norm_num [centered])⟩

/-- The middle of every non-trivial slide trace has no save events. -/
theorem saveEvents_mid : saveEvents [Ev.shift, Ev.center] = [] := rfl

/-- The middle of every non-trivial slide trace has no load events. -/
theorem loadEvents_mid : loadEvents [Ev.shift, Ev.center] = [] := rfl

/-- Claim C6: in every slide that acts, the trace decomposes as saves,
then the in-place shift, then the center update, then loads: every
event before the `shift`/`center` marks is a `sub_save` whose
filename world coordinates come from the pre-shift center, and
every event after them is a `sub_load` whose world coordinates
come from the post-shift center `current + (dx, dy)`. -/
theorem C6_slide_order (st : AtlaasState) (cx cy : ℚ) (h : ¬ centered cx cy) :
    ∃ pre post,
      (slide_to st cx cy).2 = pre ++ [Ev.shift, Ev.center] ++ post ∧
      (∀ e ∈ pre, ∃ sx sy,
        e = Ev.save sx sy (st.current.1 + sx) (st.current.2 + sy)) ∧
      (∀ e ∈ post, ∃ sx sy,
        e = Ev.load sx sy (st.current.1 + dxOf cx + sx)
              (st.current.2 + dyOf cy + sy)) := by
  refine ⟨(saveList (dxOf cx) (dyOf cy)).map
      fun p => Ev.save p.1 p.2 (st.current.1 + p.1) (st.current.2 + p.2),
    (loadList (dxOf cx) (dyOf cy)).map
      fun p => Ev.load p.1 p.2 (st.current.1 + dxOf cx + p.1)
        (st.current.2 + dyOf cy + p.2), ?_, ?_, ?_⟩
  · simp only [slide_to, if_neg h]
  · intro e he
    rw [List.mem_map] at he
    obtain ⟨p, _, rfl⟩ := he
    exact ⟨p.1, p.2, rfl⟩
  · intro e he
    rw [List.mem_map] at he
    obtain ⟨p, _, rfl⟩ := he
    exact ⟨p.1, p.2, rfl⟩

/-- Witness for C6: a plain WEST slide from the example state. -/
theorem C6_slide_order_witness :
    ¬ centered (1/10) (1/2) ∧
    ∃ pre post,
      (slide_to exFullState (1/10) (1/2)).2 = pre ++ [Ev.shift, Ev.center] ++ post ∧
      (∀ e ∈ pre, ∃ sx sy,
        e = Ev.save sx sy (exFullState.current.1 + sx) (exFullState.current.2 + sy)) ∧
      (∀ e ∈ post, ∃ sx sy,
        e = Ev.load sx sy (exFullState.current.1 + dxOf (1/10) + sx)
              (exFullState.current.2 + dyOf (1/2) + sy)) :=
  ⟨by norm_num [centered], C6_slide_order _ _ _ (by norm_num [centered])⟩

/-- Claim C1: a diagonal slide (`dx, dy = ±1`) saves exactly the five
tiles whose post-shift position `(sx − dx, sy − dy)` falls off the
3×3 grid, each under the pre-shift world coordinates
`(cur_x + sx, cur_y + sy)`, and attempts to load exactly the five
leading-edge tiles (pre-shift position off-grid) under post-shift
world coordinates `(cur_x + dx + sx, cur_y + dy + sy)`. -/
theorem C1_diagonal_five_evict_five_load (st : AtlaasState) (cx cy : ℚ)
    (dx dy : ℤ) (hdx : dxOf cx = dx) (hdy : dyOf cy = dy)
    (hx : dx = -1 ∨ dx = 1) (hy : dy = -1 ∨ dy = 1)
    (hc : ¬ centered cx cy) :
    List.Perm (saveEvents (slide_to st cx cy).2)
      ((evictSet dx dy).map fun p =>
        Ev.save p.1 p.2 (st.current.1 + p.1) (st.current.2 + p.2)) ∧
    (saveEvents (slide_to st cx cy).2).length = 5 ∧
    List.Perm (loadEvents (slide_to st cx cy).2)
      ((loadSet dx dy).map fun p =>
        Ev.load p.1 p.2 (st.current.1 + dx + p.1) (st.current.2 + dy + p.2)) ∧
    (loadEvents (slide_to st cx cy).2).length = 5 := by
  subst hdx
  subst hdy
  have htr : (slide_to st cx cy).2
      = ((saveList (dxOf cx) (dyOf cy)).map fun p =>
          Ev.save p.1 p.2 (st.current.1 + p.1) (st.current.2 + p.2))
        ++ [Ev.shift, Ev.center]
        ++ ((loadList (dxOf cx) (dyOf cy)).map fun p =>
          Ev.load p.1 p.2 (st.current.1 + dxOf cx + p.1)
            (st.current.2 + dyOf cy + p.2)) := by
    simp only [slide_to, if_neg hc]
  rw [htr]
  simp only [saveEvents_append, saveEvents_map_save, saveEvents_map_load,
    saveEvents_mid, loadEvents_append, loadEvents_map_save, loadEvents_mid,
    loadEvents_map_load, List.append_nil, List.nil_append]
  rcases hx with h1 | h1 <;> rcases hy with h2 | h2 <;> rw [h1, h2] <;>
    exact ⟨List.Perm.map _ (by decide), by rw [List.length_map]; decide,
           List.Perm.map _ (by decide), by rw [List.length_map]; decide⟩

/-- Witness for C1: the `(dx, dy) = (−1, −1)` diagonal slide from the
example state. -/
theorem C1_diagonal_witness :
    dxOf (1/10) = -1 ∧ dyOf (1/10) = -1 ∧ ¬ centered (1/10) (1/10) ∧
    (List.Perm (saveEvents (slide_to exFullState (1/10) (1/10)).2)
      ((evictSet (-1) (-1)).map fun p =>
        Ev.save p.1 p.2 (exFullState.current.1 + p.1) (exFullState.current.2 + p.2)) ∧
     (saveEvents (slide_to exFullState (1/10) (1/10)).2).length = 5 ∧
     List.Perm (loadEvents (slide_to exFullState (1/10) (1/10)).2)
      ((loadSet (-1) (-1)).map fun p =>
        Ev.load p.1 p.2 (exFullState.current.1 + (-1) + p.1)
          (exFullState.current.2 + (-1) + p.2)) ∧
     (loadEvents (slide_to exFullState (1/10) (1/10)).2).length = 5) :=
  ⟨by norm_num [dxOf], by norm_num [dyOf], by norm_num [centered],
   C1_diagonal_five_evict_five_load exFullState (1/10) (1/10) (-1) (-1)
     (by norm_num [dxOf]) (by norm_num [dyOf]) (Or.inl rfl) (Or.inl rfl)
     (by norm_num [centered])⟩

/-- The dynamic merge loop is index-parallel: entry `i` of each output
buffer is `reconcile` of entry `i` of each input buffer. -/
theorem dynMergeLoop_getD (th t : ℚ) :
    ∀ (ds ws : List Cell) (ss : List Bool) (gs : List Cell) (i : ℕ),
      ds.length = ws.length → ds.length = ss.length → ds.length = gs.length →
      i < ds.length →
      (dynMergeLoop th t ds ws ss gs).1.getD i zeroCell
          = (reconcile th t (ds.getD i zeroCell)
              ⟨ws.getD i zeroCell, ss.getD i false, gs.getD i zeroCell⟩).w ∧
      (dynMergeLoop th t ds ws ss gs).2.1.getD i false
          = (reconcile th t (ds.getD i zeroCell)
              ⟨ws.getD i zeroCell, ss.getD i false, gs.getD i zeroCell⟩).s ∧
      (dynMergeLoop th t ds ws ss gs).2.2.getD i zeroCell
          = (reconcile th t (ds.getD i zeroCell)
              ⟨ws.getD i zeroCell, ss.getD i false, gs.getD i zeroCell⟩).g := by
  intro ds
  induction ds with
  | nil =>
      intro ws ss gs i _ _ _ hi
      exact absurd hi (by simp)
  | cons d ds ih =>
      intro ws ss gs i h1 h2 h3 hi
      cases ws with
      | nil => simp at h1
      | cons w ws =>
        cases ss with
        | nil => simp at h2
        | cons s ss =>
          cases gs with
          | nil => simp at h3
          | cons g gs =>
            cases i with
            | zero => simp [dynMergeLoop]
            | succ i =>
                have h1' : ds.length = ws.length := by simpa using h1
                have h2' : ds.length = ss.length := by simpa using h2
                have h3' : ds.length = gs.length := by simpa using h3
                have hi' : i < ds.length := by simpa using hi
                simpa [dynMergeLoop] using ih ws ss gs i h1' h2' h3' hi'

/-- Claim C4: in the dynamic merge, every index `i` whose scan cell is
non-empty is reconciled by the four-way policy of the source:
a virgin persistent cell is overwritten by the scan cell and
classified `v_i = (scan_variance > threshold)`; an equal stored
class fuses the scan cell in with the pairwise merge; flat-then-
vertical saves the persistent cell to the ground cache, overwrites
it with the scan cell and marks it vertical; vertical-then-flat
restores from the ground cache, fuses the scan cell in and clears
the class. In every case the cell's `LAST_UPDATE` becomes the
current reference time `t`. -/
theorem C4_dynamic_reconcile (th t : ℚ) (ds ws : List Cell) (ss : List Bool)
    (gs : List Cell) (i : ℕ)
    (h1 : ds.length = ws.length) (h2 : ds.length = ss.length)
    (h3 : ds.length = gs.length) (hi : i < ds.length)
    (hn : (ds.getD i zeroCell).n_points > 0) :
    ((dynMergeLoop th t ds ws ss gs).1.getD i zeroCell).last_update = t ∧
    ((ws.getD i zeroCell).n_points < 1 →
      (dynMergeLoop th t ds ws ss gs).1.getD i zeroCell
          = { ds.getD i zeroCell with last_update := t } ∧
      (dynMergeLoop th t ds ws ss gs).2.1.getD i false
          = decide ((ds.getD i zeroCell).variance > th) ∧
      (dynMergeLoop th t ds ws ss gs).2.2.getD i zeroCell = gs.getD i zeroCell) ∧
    (¬ (ws.getD i zeroCell).n_points < 1 →
      ss.getD i false = decide ((ds.getD i zeroCell).variance > th) →
      (dynMergeLoop th t ds ws ss gs).1.getD i zeroCell
          = { mergeCell (ws.getD i zeroCell) (ds.getD i zeroCell) with
              last_update := t } ∧
      (dynMergeLoop th t ds ws ss gs).2.1.getD i false = ss.getD i false ∧
      (dynMergeLoop th t ds ws ss gs).2.2.getD i zeroCell = gs.getD i zeroCell) ∧
    (¬ (ws.getD i zeroCell).n_points < 1 →
      ss.getD i false = false →
      decide ((ds.getD i zeroCell).variance > th) = true →
      (dynMergeLoop th t ds ws ss gs).1.getD i zeroCell
          = { ds.getD i zeroCell with last_update := t } ∧
      (dynMergeLoop th t ds ws ss gs).2.1.getD i false = true ∧
      (dynMergeLoop th t ds ws ss gs).2.2.getD i zeroCell = ws.getD i zeroCell) ∧
    (¬ (ws.getD i zeroCell).n_points < 1 →
      ss.getD i false = true →
      decide ((ds.getD i zeroCell).variance > th) = false →
      (dynMergeLoop th t ds ws ss gs).1.getD i zeroCell
          = { mergeCell (gs.getD i zeroCell) (ds.getD i zeroCell) with
              last_update := t } ∧
      (dynMergeLoop th t ds ws ss gs).2.1.getD i false = false ∧
      (dynMergeLoop th t ds ws ss gs).2.2.getD i zeroCell
          = gs.getD i zeroCell) := by
  obtain ⟨hw, hs, hg⟩ := dynMergeLoop_getD th t ds ws ss gs i h1 h2 h3 hi
  rw [hw, hs, hg]
  refine ⟨?_, fun hvirgin => ?_, fun hvirgin hsame => ?_,
    fun hvirgin hflat hvert => ?_, fun hvirgin hvert hflat => ?_⟩
  · simp only [reconcile, if_pos hn]
  · simp only [reconcile, if_pos hn, if_pos hvirgin]
    exact ⟨by trivial, by trivial, by trivial⟩
  · simp only [reconcile, if_pos hn, if_neg hvirgin, if_pos hsame]
    exact ⟨by trivial, by trivial, by trivial⟩
  · simp only [reconcile, if_pos hn, if_neg hvirgin, hflat, hvert]
    norm_num
  · simp only [reconcile, if_pos hn, if_neg hvirgin, hvert, hflat]
    norm_num

/-- Witness for C4: one-cell buffers; the scan cell is non-empty and
vertical, the persistent cell virgin. -/
theorem C4_dynamic_witness :
    (([(⟨1, 5, 5, 5, 10, 0⟩ : Cell)]).getD 0 zeroCell).n_points > 0 ∧
    (((dynMergeLoop 2 7 [⟨1, 5, 5, 5, 10, 0⟩] [zeroCell] [false] [zeroCell]).1.getD
        0 zeroCell).last_update = 7 ∧
     (([zeroCell].getD 0 zeroCell).n_points < 1 →
       (dynMergeLoop 2 7 [⟨1, 5, 5, 5, 10, 0⟩] [zeroCell] [false] [zeroCell]).1.getD
           0 zeroCell
         = { ([(⟨1, 5, 5, 5, 10, 0⟩ : Cell)]).getD 0 zeroCell with last_update := 7 } ∧
       (dynMergeLoop 2 7 [⟨1, 5, 5, 5, 10, 0⟩] [zeroCell] [false] [zeroCell]).2.1.getD
           0 false
         = decide ((([(⟨1, 5, 5, 5, 10, 0⟩ : Cell)]).getD 0 zeroCell).variance > 2) ∧
       (dynMergeLoop 2 7 [⟨1, 5, 5, 5, 10, 0⟩] [zeroCell] [false] [zeroCell]).2.2.getD
           0 zeroCell
         = [zeroCell].getD 0 zeroCell) ∧
     (¬ ([zeroCell].getD 0 zeroCell).n_points < 1 →
       [false].getD 0 false
         = decide ((([(⟨1, 5, 5, 5, 10, 0⟩ : Cell)]).getD 0 zeroCell).variance > 2) →
       (dynMergeLoop 2 7 [⟨1, 5, 5, 5, 10, 0⟩] [zeroCell] [false] [zeroCell]).1.getD
           0 zeroCell
         = { mergeCell ([zeroCell].getD 0 zeroCell)
              (([(⟨1, 5, 5, 5, 10, 0⟩ : Cell)]).getD 0 zeroCell) with last_update := 7 } ∧
       (dynMergeLoop 2 7 [⟨1, 5, 5, 5, 10, 0⟩] [zeroCell] [false] [zeroCell]).2.1.getD
           0 false
         = [false].getD 0 false ∧
       (dynMergeLoop 2 7 [⟨1, 5, 5, 5, 10, 0⟩] [zeroCell] [false] [zeroCell]).2.2.getD
           0 zeroCell
         = [zeroCell].getD 0 zeroCell) ∧
     (¬ ([zeroCell].getD 0 zeroCell).n_points < 1 →
       [false].getD 0 false = false →
       decide ((([(⟨1, 5, 5, 5, 10, 0⟩ : Cell)]).getD 0 zeroCell).variance > 2) = true →
       (dynMergeLoop 2 7 [⟨1, 5, 5, 5, 10, 0⟩] [zeroCell] [false] [zeroCell]).1.getD
           0 zeroCell
         = { ([(⟨1, 5, 5, 5, 10, 0⟩ : Cell)]).getD 0 zeroCell with last_update := 7 } ∧
       (dynMergeLoop 2 7 [⟨1, 5, 5, 5, 10, 0⟩] [zeroCell] [false] [zeroCell]).2.1.getD
           0 false = true ∧
       (dynMergeLoop 2 7 [⟨1, 5, 5, 5, 10, 0⟩] [zeroCell] [false] [zeroCell]).2.2.getD
           0 zeroCell
         = [zeroCell].getD 0 zeroCell) ∧
     (¬ ([zeroCell].getD 0 zeroCell).n_points < 1 →
       [false].getD 0 false = true →
       decide ((([(⟨1, 5, 5, 5, 10, 0⟩ : Cell)]).getD 0 zeroCell).variance > 2) = false →
       (dynMergeLoop 2 7 [⟨1, 5, 5, 5, 10, 0⟩] [zeroCell] [false] [zeroCell]).1.getD
           0 zeroCell
         = { mergeCell ([zeroCell].getD 0 zeroCell)
              (([(⟨1, 5, 5, 5, 10, 0⟩ : Cell)]).getD 0 zeroCell) with last_update := 7 } ∧
       (dynMergeLoop 2 7 [⟨1, 5, 5, 5, 10, 0⟩] [zeroCell] [false] [zeroCell]).2.1.getD
           0 false = false ∧
       (dynMergeLoop 2 7 [⟨1, 5, 5, 5, 10, 0⟩] [zeroCell] [false] [zeroCell]).2.2.getD
           0 zeroCell
         = [zeroCell].getD 0 zeroCell)) :=
  ⟨by norm_num [zeroCell],
   C4_dynamic_reconcile 2 7 [⟨1, 5, 5, 5, 10, 0⟩] [zeroCell] [false] [zeroCell] 0
     rfl rfl rfl (by decide) (by norm_num [zeroCell])⟩

/-- The buffer returned by the `variance_mean` loop is the pointwise
finalization of its input. -/
theorem varianceLoop_fst : ∀ inter : List Cell,
    (varianceLoop inter).1 = inter.map finalizeCell
  | [] => rfl
  | c :: rest => by
      by_cases h : c.n_points > 2 <;>
        simp [varianceLoop, finalizeCell, h, varianceLoop_fst rest]

/-- The count returned by the `variance_mean` loop is the number of
cells with more than two samples. -/
theorem varianceLoop_count : ∀ inter : List Cell,
    (varianceLoop inter).2.1
      = (inter.filter fun c => decide (c.n_points > 2)).length
  | [] => rfl
  | c :: rest => by
      by_cases h : c.n_points > 2 <;>
        simp [varianceLoop, h, varianceLoop_count rest, List.filter_cons]

/-- The total accumulated by the `variance_mean` loop is the sum of
finalized variances over the qualifying cells. -/
theorem varianceLoop_total : ∀ inter : List Cell,
    (varianceLoop inter).2.2
      = ((inter.filter fun c => decide (c.n_points > 2)).map
          fun c => c.variance / (c.n_points - 1)).sum
  | [] => rfl
  | c :: rest => by
      by_cases h : c.n_points > 2 <;>
        simp [varianceLoop, h, varianceLoop_total rest, List.filter_cons, add_comm]

/-- `getD` through a `map finalizeCell` at an in-range index. -/
theorem getD_map_finalize : ∀ (inter : List Cell) (i : ℕ), i < inter.length →
    (inter.map finalizeCell).getD i zeroCell = finalizeCell (inter.getD i zeroCell)
  | [], i, h => absurd h (by simp)
  | _ :: _, 0, _ => rfl
  | _ :: rest, i + 1, h => getD_map_finalize rest i (by simpa using h)

/-- Claim C10: `variance_mean` mutates its buffer in place — every cell
with `n_points ≥ 3` has its stored `VARIANCE` band replaced by
`VARIANCE / (n_points − 1)` while cells with `n_points ≤ 2` are
left unchanged — and returns the mean of the finalized variances
of qualifying cells, or 0 when no cell qualifies. -/
theorem C10_variance_mean_inplace (inter : List Cell) (i : ℕ)
    (hi : i < inter.length) :
    ((inter.getD i zeroCell).n_points ≥ 3 →
      (variance_mean inter).1.getD i zeroCell
        = { inter.getD i zeroCell with
            variance := (inter.getD i zeroCell).variance
              / ((inter.getD i zeroCell).n_points - 1) }) ∧
    ((inter.getD i zeroCell).n_points ≤ 2 →
      (variance_mean inter).1.getD i zeroCell = inter.getD i zeroCell) ∧
    ((inter.filter fun c => decide (c.n_points > 2)) = [] →
      (variance_mean inter).2 = 0) ∧
    ((inter.filter fun c => decide (c.n_points > 2)) ≠ [] →
      (variance_mean inter).2
        = ((inter.filter fun c => decide (c.n_points > 2)).map
            fun c => c.variance / (c.n_points - 1)).sum
          / (((inter.filter fun c => decide (c.n_points > 2)).length : ℚ))) := by
  have hfst : (variance_mean inter).1 = (varianceLoop inter).1 := by
    simp only [variance_mean]
    split <;> rfl
  refine ⟨fun h3 => ?_, fun h2 => ?_, fun hq => ?_, fun hq => ?_⟩
  · have hgt : (inter.getD i zeroCell).n_points > 2 :=
      lt_of_lt_of_le (by norm_num) h3
    rw [hfst, varianceLoop_fst, getD_map_finalize inter i hi, finalizeCell,
      if_pos hgt]
  · have hng : ¬ (inter.getD i zeroCell).n_points > 2 := not_lt.mpr h2
    rw [hfst, varianceLoop_fst, getD_map_finalize inter i hi, finalizeCell,
      if_neg hng]
  · have h0 : (varianceLoop inter).2.1 = 0 := by
      rw [varianceLoop_count, hq]
      rfl
    simp only [variance_mean]
    rw [if_pos h0]
  · have h0 : (varianceLoop inter).2.1 ≠ 0 := by
      rw [varianceLoop_count]
      simpa [List.length_eq_zero] using hq
    simp only [variance_mean]
    rw [if_neg h0, varianceLoop_total, varianceLoop_count]

/-- Witness for C10 on a two-cell buffer: the first cell qualifies
(`n_points = 3`) and is finalized in place, the second does not. -/
theorem C10_variance_mean_witness :
    0 < ([⟨3, 0, 0, 0, 4, 0⟩, ⟨1, 0, 0, 0, 9, 0⟩] : List Cell).length ∧
    ((([⟨3, 0, 0, 0, 4, 0⟩, ⟨1, 0, 0, 0, 9, 0⟩] : List Cell).getD 0 zeroCell).n_points ≥ 3 →
      (variance_mean [⟨3, 0, 0, 0, 4, 0⟩, ⟨1, 0, 0, 0, 9, 0⟩]).1.getD 0 zeroCell
        = { ([⟨3, 0, 0, 0, 4, 0⟩, ⟨1, 0, 0, 0, 9, 0⟩] : List Cell).getD 0 zeroCell with
            variance := (([⟨3, 0, 0, 0, 4, 0⟩, ⟨1, 0, 0, 0, 9, 0⟩] : List Cell).getD 0 zeroCell).variance
              / ((([⟨3, 0, 0, 0, 4, 0⟩, ⟨1, 0, 0, 0, 9, 0⟩] : List Cell).getD 0 zeroCell).n_points - 1) }) ∧
    ((([⟨3, 0, 0, 0, 4, 0⟩, ⟨1, 0, 0, 0, 9, 0⟩] : List Cell).getD 0 zeroCell).n_points ≤ 2 →
      (variance_mean [⟨3, 0, 0, 0, 4, 0⟩, ⟨1, 0, 0, 0, 9, 0⟩]).1.getD 0 zeroCell
        = ([⟨3, 0, 0, 0, 4, 0⟩, ⟨1, 0, 0, 0, 9, 0⟩] : List Cell).getD 0 zeroCell) ∧
    ((([⟨3, 0, 0, 0, 4, 0⟩, ⟨1, 0, 0, 0, 9, 0⟩] : List Cell).filter
        fun c => decide (c.n_points > 2)) = [] →
      (variance_mean [⟨3, 0, 0, 0, 4, 0⟩, ⟨1, 0, 0, 0, 9, 0⟩]).2 = 0) ∧
    ((([⟨3, 0, 0, 0, 4, 0⟩, ⟨1, 0, 0, 0, 9, 0⟩] : List Cell).filter
        fun c => decide (c.n_points > 2)) ≠ [] →
      (variance_mean [⟨3, 0, 0, 0, 4, 0⟩, ⟨1, 0, 0, 0, 9, 0⟩]).2
        = ((([⟨3, 0, 0, 0, 4, 0⟩, ⟨1, 0, 0, 0, 9, 0⟩] : List Cell).filter
            fun c => decide (c.n_points > 2)).map
            fun c => c.variance / (c.n_points - 1)).sum
          / (((([⟨3, 0, 0, 0, 4, 0⟩, ⟨1, 0, 0, 0, 9, 0⟩] : List Cell).filter
            fun c => decide (c.n_points > 2)).length : ℚ))) :=
  ⟨by decide,
   C10_variance_mean_inplace [⟨3, 0, 0, 0, 4, 0⟩, ⟨1, 0, 0, 0, 9, 0⟩] 0 (by decide)⟩

end Atlaas
